import Mathlib

/-!
Verification of the server-side OAuth gateway in `src/server/server.js`.

The server is a small Express application.  Each HTTP handler is embedded
as a pure Lean function: the mutable per-client session becomes an explicit
`Session` value threaded through the handler, the asynchronous upstream
callbacks (`sfdc.auth.authenticate`, `sfdc.auth.revoke`,
`sfdc.data.getLoggedUser`, `httpClient.get`) become oracle functions
supplied as parameters, and each handler returns the HTTP response it
produced, the session state after it completed, and the list of outbound
upstream calls it issued.
-/

/-- An OAuth credential as returned by the code-for-token exchange and
stored wholesale in `request.session.sfdcAuth`. -/
structure Credential where
  access_token : String
  instance_url : String
  token_type : String
deriving DecidableEq, Repr

/-- The server-side session: the express-session record, whose only slot
used by the server is `sfdcAuth` (`none` models the JS `undefined`). -/
structure Session where
  sfdcAuth : Option Credential
deriving DecidableEq, Repr

/-- An HTTP response as produced by the handlers: either
`response.redirect(loc)` (HTTP 302 with a Location) or
`response.status(c).send(body)` / `.json(body)` (for `.json` the body is
the serialized error payload); a bare `response.send(body)` is
`status 200 body`. -/
inductive Response where
  | redirect : String → Response
  | status : Nat → String → Response
deriving DecidableEq, Repr

/-- The numeric HTTP status code of a response; a redirect is 302. -/
def Response.statusCode : Response → Nat
  | .redirect _ => 302
  | .status c _ => c

/-- An outbound request built by `sfdc.data.createDataRequest(auth, path)`. -/
structure DataRequest where
  auth : Credential
  path : String
deriving DecidableEq, Repr

/-- One outbound call to the upstream Salesforce service. -/
inductive UpstreamCall where
  | authenticate : String → UpstreamCall
  | revoke : String → UpstreamCall
  | getLoggedUser : Credential → UpstreamCall
  | dataGet : DataRequest → UpstreamCall
deriving DecidableEq, Repr

/-- The observable outcome of running one handler: the response sent, the
session state after the handler, and the upstream calls it made. -/
structure HandlerResult where
  response : Response
  session : Session
  calls : List UpstreamCall
deriving DecidableEq, Repr

/-- JavaScript truthiness of an optional query-string parameter:
`!request.query.x` is true exactly when the parameter is absent
(`undefined`) or the empty string. -/
def jsTruthy : Option String → Bool
  | none => false
  | some s => s != ""

/-- Embedding of `getSession`: returns the session if its `sfdcAuth` slot
is defined, otherwise `none` (in the source, the `none` case also sends
`401 No active session`; the handlers below send that response on the
`none` branch). -/
def getSession (sess : Session) : Option Session :=
  if sess.sfdcAuth.isNone then none else some sess

/-- The `401` response sent by `getSession` when no credential is in
session. -/
def noActiveSession : Response := Response.status 401 "No active session"

/-- Characters left unescaped by JavaScript `encodeURI`: ASCII letters and
digits, the URI reserved characters `; / ? : @ & = + $ ,`, the unescaped
marks `- _ . ! ~ * ' ( )`, and `#`. -/
def uriAllowed (c : Char) : Bool :=
  c.isAlphanum ||
    [';', '/', '?', ':', '@', '&', '=', '+', '$', ',',
     '-', '_', '.', '!', '~', '*', Char.ofNat 39, '(', ')', '#'].contains c

/-- The uppercase hexadecimal digit for `n` (defaulting to `'0'` out of
range). -/
def hexDigit (n : Nat) : Char :=
  List.getD ['0', '1', '2', '3', '4', '5', '6', '7',
             '8', '9', 'A', 'B', 'C', 'D', 'E', 'F'] n '0'

/-- The UTF-8 encoding of the code point of `c`, as a list of byte
values. -/
def utf8Bytes (c : Char) : List Nat :=
  let v := c.toNat
  if v < 0x80 then [v]
  else if v < 0x800 then
    [0xC0 ||| (v >>> 6), 0x80 ||| (v &&& 0x3F)]
  else if v < 0x10000 then
    [0xE0 ||| (v >>> 12), 0x80 ||| ((v >>> 6) &&& 0x3F), 0x80 ||| (v &&& 0x3F)]
  else
    [0xF0 ||| (v >>> 18), 0x80 ||| ((v >>> 12) &&& 0x3F),
     0x80 ||| ((v >>> 6) &&& 0x3F), 0x80 ||| (v &&& 0x3F)]

/-- The percent-escape `%XX` of one byte. -/
def percentByte (b : Nat) : List Char :=
  ['%', hexDigit (b / 16), hexDigit (b % 16)]

/-- `encodeURI` on a single character: kept verbatim when in the
unescaped set, otherwise replaced by the percent-escapes of its UTF-8
bytes. -/
def encodeURIChar (c : Char) : List Char :=
  if uriAllowed c then [c] else (utf8Bytes c).flatMap percentByte

/-- Model of JavaScript `encodeURI`, applied by the query handler to the
caller-supplied query string. -/
def encodeURI (s : String) : String :=
  String.mk (s.data.flatMap encodeURIChar)

/-- Embedding of `app.get('/auth/callback')`.  `code` is
`request.query.code`; `authenticate` is the oracle for
`sfdc.auth.authenticate` (its callback receives either an error payload or
the token payload). -/
def authCallback (sess : Session) (code : Option String)
    (authenticate : String → Except String Credential) : HandlerResult :=
  match code with
  | none =>
    { response := Response.status 500
        "Failed to get authorization code from server callback.",
      session := sess, calls := [] }
  | some c =>
    if c = "" then
      { response := Response.status 500
          "Failed to get authorization code from server callback.",
        session := sess, calls := [] }
    else
      match authenticate c with
      | .error e =>
        { response := Response.status 500 e, session := sess,
          calls := [UpstreamCall.authenticate c] }
      | .ok payload =>
        { response := Response.redirect "/index.html",
          session := { sfdcAuth := some payload },
          calls := [UpstreamCall.authenticate c] }

/-- Embedding of `app.get('/auth/logout')`.  `revoke` is the oracle for
`sfdc.auth.revoke` (`none` = success, `some e` = error payload);
`destroyErr` is the error, if any, passed to the `session.destroy`
callback (it is only logged; `destroy` removes the session record
regardless). -/
def authLogout (sess : Session) (revoke : String → Option String)
    (destroyErr : Option String) : HandlerResult :=
  match getSession sess with
  | none => { response := noActiveSession, session := sess, calls := [] }
  | some session =>
    match session.sfdcAuth with
    | none => { response := noActiveSession, session := sess, calls := [] }
    | some auth =>
      match revoke auth.access_token with
      | some e =>
        { response := Response.status 500 e, session := sess,
          calls := [UpstreamCall.revoke auth.access_token] }
      | none =>
        { response := Response.redirect "/index.html",
          session := { sfdcAuth := none },
          calls := [UpstreamCall.revoke auth.access_token] }

/-- Embedding of `app.get('/auth/whoami')`.  `getLoggedUser` is the
oracle for `sfdc.data.getLoggedUser`. -/
def authWhoami (sess : Session)
    (getLoggedUser : Credential → Except String String) : HandlerResult :=
  match getSession sess with
  | none => { response := noActiveSession, session := sess, calls := [] }
  | some session =>
    match session.sfdcAuth with
    | none => { response := noActiveSession, session := sess, calls := [] }
    | some auth =>
      match getLoggedUser auth with
      | .error e =>
        { response := Response.status 500 e, session := sess,
          calls := [UpstreamCall.getLoggedUser auth] }
      | .ok userData =>
        { response := Response.status 200 userData, session := sess,
          calls := [UpstreamCall.getLoggedUser auth] }

/-- Embedding of `sfdc.data.createDataRequest`. -/
def createDataRequest (auth : Credential) (p : String) : DataRequest :=
  { auth := auth, path := p }

/-- Embedding of `app.get('/query')`.  `q` is `request.query.q`;
`httpGet` is the oracle for `httpClient.get` on the built data request
(error payload or `payload.body`). -/
def queryEndpoint (sess : Session) (q : Option String)
    (httpGet : DataRequest → Except String String) : HandlerResult :=
  match getSession sess with
  | none => { response := noActiveSession, session := sess, calls := [] }
  | some session =>
    match session.sfdcAuth with
    | none => { response := noActiveSession, session := sess, calls := [] }
    | some auth =>
      if jsTruthy q = false then
        { response := Response.status 400 "Missing query parameter.",
          session := sess, calls := [] }
      else
        let query := encodeURI (q.getD "")
        let apiRequestOptions := createDataRequest auth ("query?q=" ++ query)
        match httpGet apiRequestOptions with
        | .error e =>
          { response := Response.status 500 e, session := sess,
            calls := [UpstreamCall.dataGet apiRequestOptions] }
        | .ok body =>
          { response := Response.status 200 body, session := sess,
            calls := [UpstreamCall.dataGet apiRequestOptions] }

/-- A character that can appear in a percent-escape: the marker `%` or an
uppercase hexadecimal digit. -/
def percentMaterial (d : Char) : Bool :=
  d == '%' ||
    ['0', '1', '2', '3', '4', '5', '6', '7',
     '8', '9', 'A', 'B', 'C', 'D', 'E', 'F'].contains d

theorem hexDigit_material (n : Nat) : percentMaterial (hexDigit n) = true := by
  by_cases h : n < 16
  · unfold hexDigit
    interval_cases n <;> decide
  · unfold hexDigit
    rw [List.getD_eq_default]
    · decide
    · simpa using Nat.le_of_not_lt h

theorem encodeURIChar_escapes (c : Char) (h : uriAllowed c = false) :
    ∀ d ∈ encodeURIChar c, percentMaterial d = true := by
  intro d hd
  unfold encodeURIChar at hd
  rw [if_neg (by simp [h])] at hd
  rcases List.mem_flatMap.mp hd with ⟨b, _, hdb⟩
  unfold percentByte at hdb
  simp only [List.mem_cons, List.not_mem_nil, or_false] at hdb
  rcases hdb with rfl | rfl | rfl
  · decide
  · exact hexDigit_material (b / 16)
  · exact hexDigit_material (b % 16)

/-- C2: for every request to a protected endpoint (`/auth/logout`,
`/auth/whoami`, `/query`) whose session holds no credential, the response
is HTTP 401 with the diagnostic `No active session` and the handler makes
no outbound upstream call. -/
theorem unauthenticated_requests_rejected (sess : Session)
    (revoke : String → Option String) (destroyErr : Option String)
    (getLoggedUser : Credential → Except String String)
    (q : Option String) (httpGet : DataRequest → Except String String)
    (h : sess.sfdcAuth = none) :
    (authLogout sess revoke destroyErr).response = Response.status 401 "No active session" ∧
    (authLogout sess revoke destroyErr).calls = [] ∧
    (authWhoami sess getLoggedUser).response = Response.status 401 "No active session" ∧
    (authWhoami sess getLoggedUser).calls = [] ∧
    (queryEndpoint sess q httpGet).response = Response.status 401 "No active session" ∧
    (queryEndpoint sess q httpGet).calls = [] := by
  simp [authLogout, authWhoami, queryEndpoint, getSession, h, noActiveSession]

theorem unauthenticated_requests_rejected_witness :
    (authLogout ⟨none⟩ (fun _ => none) none).response = Response.status 401 "No active session" ∧
    (authLogout ⟨none⟩ (fun _ => none) none).calls = [] ∧
    (authWhoami ⟨none⟩ (fun _ => Except.ok "me")).response = Response.status 401 "No active session" ∧
    (authWhoami ⟨none⟩ (fun _ => Except.ok "me")).calls = [] ∧
    (queryEndpoint ⟨none⟩ (some "SELECT Id FROM Account") (fun _ => Except.ok "{}")).response =
      Response.status 401 "No active session" ∧
    (queryEndpoint ⟨none⟩ (some "SELECT Id FROM Account") (fun _ => Except.ok "{}")).calls = [] :=
  unauthenticated_requests_rejected ⟨none⟩ (fun _ => none) none
    (fun _ => Except.ok "me") (some "SELECT Id FROM Account") (fun _ => Except.ok "{}") rfl

/-- C4: for every callback request carrying a (truthy) `code` whose
code-for-credential exchange succeeds with payload `P`, the session's
credential afterwards equals `P` exactly and the response is a 302
redirect to `/index.html`. -/
theorem callback_success_stores_credential (sess : Session) (c : String)
    (authenticate : String → Except String Credential) (P : Credential)
    (hc : c ≠ "") (hx : authenticate c = Except.ok P) :
    (authCallback sess (some c) authenticate).session.sfdcAuth = some P ∧
    (authCallback sess (some c) authenticate).response = Response.redirect "/index.html" ∧
    ((authCallback sess (some c) authenticate).response).statusCode = 302 := by
  simp [authCallback, hc, hx, Response.statusCode]

theorem callback_success_stores_credential_witness :
    (authCallback ⟨none⟩ (some "aPrf") (fun _ => Except.ok ⟨"00D", "https://na1", "Bearer"⟩)).session.sfdcAuth
      = some ⟨"00D", "https://na1", "Bearer"⟩ ∧
    (authCallback ⟨none⟩ (some "aPrf") (fun _ => Except.ok ⟨"00D", "https://na1", "Bearer"⟩)).response
      = Response.redirect "/index.html" ∧
    ((authCallback ⟨none⟩ (some "aPrf") (fun _ => Except.ok ⟨"00D", "https://na1", "Bearer"⟩)).response).statusCode
      = 302 :=
  callback_success_stores_credential ⟨none⟩ "aPrf"
    (fun _ => Except.ok ⟨"00D", "https://na1", "Bearer"⟩) ⟨"00D", "https://na1", "Bearer"⟩
    (by decide) rfl

/-- C6: a callback request with no `code` parameter yields HTTP 500 with
a diagnostic message and makes no outbound upstream call. -/
theorem callback_missing_code (sess : Session)
    (authenticate : String → Except String Credential) :
    (authCallback sess none authenticate).response =
      Response.status 500 "Failed to get authorization code from server callback." ∧
    (authCallback sess none authenticate).calls = [] := by
  simp [authCallback]

/-- C7: a query request on an authenticated session whose `q` parameter
is absent or empty yields HTTP 400 with a diagnostic message and makes no
outbound upstream call. -/
theorem query_missing_param (sess : Session) (cred : Credential)
    (q : Option String) (httpGet : DataRequest → Except String String)
    (h : sess.sfdcAuth = some cred) (hq : jsTruthy q = false) :
    (queryEndpoint sess q httpGet).response = Response.status 400 "Missing query parameter." ∧
    (queryEndpoint sess q httpGet).calls = [] := by
  simp [queryEndpoint, getSession, h, hq]

theorem query_missing_param_witness :
    (queryEndpoint ⟨some ⟨"00D", "https://na1", "Bearer"⟩⟩ none (fun _ => Except.ok "{}")).response
      = Response.status 400 "Missing query parameter." ∧
    (queryEndpoint ⟨some ⟨"00D", "https://na1", "Bearer"⟩⟩ none (fun _ => Except.ok "{}")).calls = [] :=
  query_missing_param ⟨some ⟨"00D", "https://na1", "Bearer"⟩⟩ ⟨"00D", "https://na1", "Bearer"⟩
    none (fun _ => Except.ok "{}") rfl rfl

/-- C9: callback is atomic on exchange failure: when the exchange fails
with payload `e`, the response is HTTP 500 carrying `e` and the session
is left exactly as it was. -/
theorem callback_failure_atomic (sess : Session) (c : String)
    (authenticate : String → Except String Credential) (e : String)
    (hc : c ≠ "") (hx : authenticate c = Except.error e) :
    (authCallback sess (some c) authenticate).response = Response.status 500 e ∧
    (authCallback sess (some c) authenticate).session = sess := by
  simp [authCallback, hc, hx]

theorem callback_failure_atomic_witness :
    (authCallback ⟨some ⟨"old", "https://na1", "Bearer"⟩⟩ (some "badCode")
        (fun _ => Except.error "invalid_grant")).response = Response.status 500 "invalid_grant" ∧
    (authCallback ⟨some ⟨"old", "https://na1", "Bearer"⟩⟩ (some "badCode")
        (fun _ => Except.error "invalid_grant")).session = ⟨some ⟨"old", "https://na1", "Bearer"⟩⟩ :=
  callback_failure_atomic ⟨some ⟨"old", "https://na1", "Bearer"⟩⟩ "badCode"
    (fun _ => Except.error "invalid_grant") "invalid_grant" (by decide) rfl

/-- C10: in the query endpoint the authentication check precedes
parameter validation: with no credential in session and `q` also missing,
the response is HTTP 401, never HTTP 400. -/
theorem query_auth_precedes_validation (sess : Session)
    (httpGet : DataRequest → Except String String)
    (h : sess.sfdcAuth = none) :
    (queryEndpoint sess none httpGet).response = Response.status 401 "No active session" ∧
    ((queryEndpoint sess none httpGet).response).statusCode ≠ 400 := by
  simp [queryEndpoint, getSession, h, noActiveSession, Response.statusCode]

theorem query_auth_precedes_validation_witness :
    (queryEndpoint ⟨none⟩ none (fun _ => Except.ok "{}")).response =
      Response.status 401 "No active session" ∧
    ((queryEndpoint ⟨none⟩ none (fun _ => Except.ok "{}")).response).statusCode ≠ 400 :=
  query_auth_precedes_validation ⟨none⟩ (fun _ => Except.ok "{}") rfl

/-- C8: the whoami and query handlers never modify the session: whatever
the credential, the `q` parameter, or the upstream outcomes, the session
after the handler equals the session before it. -/
theorem whoami_query_preserve_session (sess : Session)
    (getLoggedUser : Credential → Except String String)
    (q : Option String) (httpGet : DataRequest → Except String String) :
    (authWhoami sess getLoggedUser).session = sess ∧
    (queryEndpoint sess q httpGet).session = sess := by
  constructor
  · rcases sess with ⟨_ | cred⟩
    · rfl
    · unfold authWhoami getSession
      simp only [Option.isNone_some, Bool.false_eq_true, if_false]
      cases getLoggedUser cred <;> rfl
  · rcases sess with ⟨_ | cred⟩
    · rfl
    · unfold queryEndpoint getSession
      simp only [Option.isNone_some, Bool.false_eq_true, if_false]
      split
      · rfl
      · split <;> rfl

/-- C3: for a query request on an authenticated session with a truthy
`q`, an upstream failure is surfaced as HTTP 500 carrying the upstream
error payload, and an upstream success returns the upstream response body
verbatim (a plain 200 `send`). -/
theorem query_upstream_passthrough (sess : Session) (cred : Credential) (s : String)
    (httpGet : DataRequest → Except String String)
    (h : sess.sfdcAuth = some cred) (hs : s ≠ "") :
    (∀ e, httpGet (createDataRequest cred ("query?q=" ++ encodeURI s)) = Except.error e →
      (queryEndpoint sess (some s) httpGet).response = Response.status 500 e) ∧
    (∀ b, httpGet (createDataRequest cred ("query?q=" ++ encodeURI s)) = Except.ok b →
      (queryEndpoint sess (some s) httpGet).response = Response.status 200 b) := by
  constructor
  · intro e he
    simp [queryEndpoint, getSession, h, jsTruthy, hs, he]
  · intro b hb
    simp [queryEndpoint, getSession, h, jsTruthy, hs, hb]

theorem query_upstream_passthrough_witness :
    (∀ e, (fun _ : DataRequest => Except.error (ε := String) (α := String) "DNS failure")
        (createDataRequest ⟨"00D", "https://na1", "Bearer"⟩
          ("query?q=" ++ encodeURI "SELECT Id FROM Account")) = Except.error e →
      (queryEndpoint ⟨some ⟨"00D", "https://na1", "Bearer"⟩⟩ (some "SELECT Id FROM Account")
        (fun _ => Except.error "DNS failure")).response = Response.status 500 e) ∧
    (∀ b, (fun _ : DataRequest => Except.error (ε := String) (α := String) "DNS failure")
        (createDataRequest ⟨"00D", "https://na1", "Bearer"⟩
          ("query?q=" ++ encodeURI "SELECT Id FROM Account")) = Except.ok b →
      (queryEndpoint ⟨some ⟨"00D", "https://na1", "Bearer"⟩⟩ (some "SELECT Id FROM Account")
        (fun _ => Except.error "DNS failure")).response = Response.status 200 b) :=
  query_upstream_passthrough ⟨some ⟨"00D", "https://na1", "Bearer"⟩⟩
    ⟨"00D", "https://na1", "Bearer"⟩ "SELECT Id FROM Account"
    (fun _ => Except.error "DNS failure") rfl (by decide)

/-- C1 as stated is false: with an authenticated session whose revoke
call fails, the logout handler responds 500 with the error payload and
keeps the credential, rather than redirecting to `/index.html` with the
credential cleared. -/
theorem logout_claim_counterexample :
    ¬ ((authLogout ⟨some ⟨"tok", "https://na1", "Bearer"⟩⟩
          (fun _ => some "revoke failed") none).response = Response.redirect "/index.html" ∧
       (authLogout ⟨some ⟨"tok", "https://na1", "Bearer"⟩⟩
          (fun _ => some "revoke failed") none).session.sfdcAuth = none) := by
  decide

/-- C1 amended: on an authenticated session, logout redirects 302 to
`/index.html` and clears the credential exactly when the upstream revoke
succeeds; when the revoke fails with payload `e`, the response is HTTP 500
carrying `e` and the session keeps its credential. -/
theorem logout_behavior (sess : Session) (cred : Credential)
    (revoke : String → Option String) (destroyErr : Option String)
    (h : sess.sfdcAuth = some cred) :
    (revoke cred.access_token = none →
      (authLogout sess revoke destroyErr).response = Response.redirect "/index.html" ∧
      (authLogout sess revoke destroyErr).session.sfdcAuth = none) ∧
    (∀ e, revoke cred.access_token = some e →
      (authLogout sess revoke destroyErr).response = Response.status 500 e ∧
      (authLogout sess revoke destroyErr).session.sfdcAuth = some cred) := by
  constructor
  · intro hr
    simp [authLogout, getSession, h, hr]
  · intro e hr
    simp [authLogout, getSession, h, hr]

theorem logout_behavior_witness :
    (((fun _ : String => none (α := String)) "tok" = none →
      (authLogout ⟨some ⟨"tok", "https://na1", "Bearer"⟩⟩ (fun _ => none) none).response
        = Response.redirect "/index.html" ∧
      (authLogout ⟨some ⟨"tok", "https://na1", "Bearer"⟩⟩ (fun _ => none) none).session.sfdcAuth
        = none) ∧
    (∀ e, (fun _ : String => none (α := String)) "tok" = some e →
      (authLogout ⟨some ⟨"tok", "https://na1", "Bearer"⟩⟩ (fun _ => none) none).response
        = Response.status 500 e ∧
      (authLogout ⟨some ⟨"tok", "https://na1", "Bearer"⟩⟩ (fun _ => none) none).session.sfdcAuth
        = some ⟨"tok", "https://na1", "Bearer"⟩)) :=
  logout_behavior ⟨some ⟨"tok", "https://na1", "Bearer"⟩⟩ ⟨"tok", "https://na1", "Bearer"⟩
    (fun _ => none) none rfl

/-- C5: for an authenticated query request with a truthy `q` equal to
`s`, the query component of the forwarded upstream request is
`q=` followed by `encodeURI s`, the percent-encoded form of `s`; and in
that encoding every character that is not legal raw in a URI is replaced
by percent-escapes (its contribution consists only of `%` markers and
hexadecimal digits). -/
theorem query_forwards_encoded (sess : Session) (cred : Credential) (s : String)
    (httpGet : DataRequest → Except String String)
    (h : sess.sfdcAuth = some cred) (hs : s ≠ "") :
    (queryEndpoint sess (some s) httpGet).calls =
      [UpstreamCall.dataGet (createDataRequest cred ("query?q=" ++ encodeURI s))] ∧
    (∀ c ∈ s.data, uriAllowed c = false →
      ∀ d ∈ encodeURIChar c, percentMaterial d = true) := by
  constructor
  · rcases hg : httpGet (createDataRequest cred ("query?q=" ++ encodeURI s)) with e | b <;>
      simp [queryEndpoint, getSession, h, jsTruthy, hs, hg]
  · intro c _ hcna
    exact encodeURIChar_escapes c hcna

theorem query_forwards_encoded_witness :
    (queryEndpoint ⟨some ⟨"00D", "https://na1", "Bearer"⟩⟩ (some "SELECT Id FROM X")
        (fun _ => Except.ok "{}")).calls =
      [UpstreamCall.dataGet
        (createDataRequest ⟨"00D", "https://na1", "Bearer"⟩
          ("query?q=" ++ encodeURI "SELECT Id FROM X"))] ∧
    (∀ c ∈ ("SELECT Id FROM X" : String).data, uriAllowed c = false →
      ∀ d ∈ encodeURIChar c, percentMaterial d = true) :=
  query_forwards_encoded ⟨some ⟨"00D", "https://na1", "Bearer"⟩⟩ ⟨"00D", "https://na1", "Bearer"⟩
    "SELECT Id FROM X" (fun _ => Except.ok "{}") rfl (by decide)

theorem encodeURI_spaces_example :
    encodeURI "SELECT Id FROM X" = "SELECT%20Id%20FROM%20X" := by decide
